import Mathlib

/-!
Verification of the self-modifying agent supervisor (code-agent).

Shallow embedding of the three source files:
  * `agent.py`  — sandbox executor (`execute_code`), syntax validator
    (` validate_python_syntax`), commit (`update_agent_code`) and the
    pending-attempt reader (`check_last_update_status`);
  * `main.py`   — boot-time import check, rollback (`revert_agent_code`),
    the needs-restart flag reader and the resume-token read;
  * `loop.py`   — outer retry loop (backoff delay, failure cap).

Python-level effects are made explicit:
  * the on-disk snapshot family (live file, `.backup`, `.restart_metadata`,
    `.needs_restart`, `.error`) is the record `FS`; a field is `none` when
    the corresponding file does not exist;
  * the CPython byte-code executor behind `exec` is an abstract semantics
    parameter `sem : String → ExecOutcome`; an outcome either terminates
    normally (with the captured stdout text and the populated namespace),
    raises an exception from the `Exception` hierarchy (the sole hierarchy
    the `except Exception` clause of the source catches), or raises a `BaseException` that
    is not an `Exception` (`SystemExit`, `KeyboardInterrupt`, user-defined
    `BaseException` subclasses), which the `except` clause does not catch;
  * the CPython parser behind `ast.parse` is an abstract total parameter
    `parse : String → ParseResult`; on failure it carries the fields of
    the raised `SyntaxError` (`str(e)`, `e.lineno`, `e.offset`, `e.text`,
    each of the last three possibly `None`);
  * `time.time()` and the process environment enter as explicit arguments.
-/

namespace VibeAgent

/-! ### Python values and execution outcomes (agent.py, `execute_code`) -/

/-- Subset of Python values large enough for the namespace bindings the
claims mention (`result = 42`, strings, `None`). -/
inductive PyValue where
  | int (n : Int)
  | str (s : String)
  | pyNone
  deriving DecidableEq

/-- Outcome of `exec(code, namespace)` under CPython, abstracted: normal
termination with the text written to the (swapped-in) stdout and the
populated namespace; a raised `Exception` (carrying `str(e)` and the
traceback body); or a raised `BaseException` outside the `Exception`
hierarchy. -/
inductive ExecOutcome where
  | normal (output : String) (names : List (String × PyValue))
  | raisesError (msg : String) (tb : String)
  | raisesBase (msg : String)
  deriving DecidableEq

/-- Header that `traceback.format_exc()` prepends to the frame listing of
the active exception. -/
def traceback_header : String := "Traceback (most recent call last):\n"

/-- Model of `traceback.format_exc()` applied to the active exception whose
frame listing is `tb`. -/
def traceback_format_exc (tb : String) : String := traceback_header ++ tb

/-- Host-process state visible to `execute_code`: the object currently
referenced by `sys.stdout`, identified by an abstract object id. -/
structure HostState where
  sys_stdout : Nat
  deriving DecidableEq

/-- Dictionary returned by `execute_code` on the non-propagating paths.
A field is `none` when the corresponding key is absent from the dict
(the success dict has no `error_message`; the error dict has no `stdout`). -/
structure ExecResult where
  status : String
  stdout : Option String := none
  result : Option PyValue := none
  error_message : Option String := none
  traceback : Option String := none
  deriving DecidableEq

/-- How a call to `execute_code` ends for its caller: with a returned dict,
or by propagating an uncaught exception. -/
inductive ExecCall where
  | returns (r : ExecResult)
  | propagates (msg : String)
  deriving DecidableEq

/-- Embedding of `agent.py` lines 16-51. `sys.stdout` is saved, swapped for
a fresh `StringIO`, and the `finally` clause restores it on every path —
normal return, caught `Exception`, and uncaught `BaseException` alike.
On success the dict carries the captured output and `namespace.get("result",
None)`; on a caught exception it carries `str(e)` and
`traceback.format_exc()`; a `BaseException` that is not an `Exception`
passes the `except Exception` clause uncaught and propagates. -/
def execute_code (sem : String → ExecOutcome) (code : String) (st : HostState) :
    ExecCall × HostState :=
  let old_stdout := st.sys_stdout
  match sem code with
  | .normal output names =>
      (ExecCall.returns
        { status := "success"
          stdout := some output
          result := some ((List.lookup "result" names).getD PyValue.pyNone) },
       { sys_stdout := old_stdout })
  | .raisesError msg tb =>
      (ExecCall.returns
        { status := "error"
          error_message := some msg
          traceback := some (traceback_format_exc tb) },
       { sys_stdout := old_stdout })
  | .raisesBase msg =>
      (ExecCall.propagates msg, { sys_stdout := old_stdout })

/-! ### Syntax validation (agent.py, ` validate_python_syntax`) -/

/-- Result of `ast.parse(code)`: a parse tree (only its existence matters
here), or the raised `SyntaxError` with `str(e)`, `e.lineno`, `e.offset`
and `e.text` (the attributes may be `None`). -/
inductive ParseResult where
  | ok
  | err (msg : String) (lineno : Option Nat) (offset : Option Nat) (text : Option String)
  deriving DecidableEq

/-- Dict returned by ` validate_python_syntax`; optional fields are absent
from the success dict. -/
structure ValidationResult where
  status : String
  message : String
  error_type : Option String := none
  line : Option (Option Nat) := none
  offset : Option (Option Nat) := none
  text : Option (Option String) := none
  deriving DecidableEq

/-- Embedding of `agent.py` lines 79-99: parse the candidate with the
standard parser and report either success or a structured `SyntaxError`
dict. The function only consults the parser — it takes no `HostState` or
`FS`, so it can neither execute the candidate nor touch any file. -/
def validate_python_syntax (parse : String → ParseResult) (code : String) :
    ValidationResult :=
  match parse code with
  | .ok => { status := "success", message := "Syntax is valid" }
  | .err msg lineno offset text =>
      { status := "error"
        error_type := some "SyntaxError"
        message := msg
        line := some lineno
        offset := some offset
        text := some text }

/-! ### On-disk state (the snapshot file family) -/

/-- Content of `<agent path>.restart_metadata` (written by
`update_agent_code` as JSON; held structured here). -/
structure RestartMetadata where
  timestamp : Nat
  backup_file : String
  reason : String
  session_info : String
  deriving DecidableEq

/-- Content of `<agent path>.error` (written by `revert_agent_code` as
JSON; held structured here). -/
structure ErrorInfo where
  timestamp : Nat
  error : String
  traceback : String
  deriving DecidableEq

/-- The snapshot file family on disk. The live file always exists (it is
the running program); each auxiliary file is `none` when absent. -/
structure FS where
  live : String
  backup : Option String := none
  metadata : Option RestartMetadata := none
  needs_restart : Option String := none
  error : Option ErrorInfo := none
  deriving DecidableEq

/-- Path of the agent source file (`main.py` line 22; `agent.py` uses
`os.path.abspath(__file__)` of the same file). -/
def AGENT_FILE : String := "agent.py"

/-! ### Commit (agent.py, `update_agent_code`) -/

/-- Dict returned by `update_agent_code`; optional fields are absent keys. -/
structure UpdateResult where
  status : String
  message : Option String := none
  error_message : Option String := none
  validation_details : Option ValidationResult := none
  file_path : Option String := none
  backup_path : Option String := none
  deriving DecidableEq

/-- Embedding of `agent.py` lines 102-159. Validation runs first and an
invalid candidate returns before any file is touched. Otherwise, in source
order: the current live content is copied to `.backup`, the restart
metadata (with `time.time()` as `now` and the `CURRENT_SESSION_INFO`
environment value, defaulting to the literal two-brace JSON object text)
is written, the candidate overwrites the live file, and the
`.needs_restart` marker is created with content "1". -/
def update_agent_code (parse : String → ParseResult) (now : Nat)
    (env_session : Option String) (new_code : String) (st : FS) :
    UpdateResult × FS :=
  let validation := validate_python_syntax parse new_code
  if validation.status = "error" then
    ({ status := "error"
       error_message := some ("Syntax validation failed: " ++ validation.message)
       validation_details := some validation }, st)
  else
    let current_file := AGENT_FILE
    let backup_file := current_file ++ ".backup"
    let backup_content := st.live
    let st1 := { st with backup := some backup_content }
    let md : RestartMetadata :=
      { timestamp := now
        backup_file := backup_file
        reason := "code_update"
        session_info := env_session.getD "\x7b\x7d" }
    let st2 := { st1 with metadata := some md }
    let st3 := { st2 with live := new_code }
    let st4 := { st3 with needs_restart := some "1" }
    ({ status := "success"
       message := some "Agent code updated successfully. Automatic restart will be triggered."
       file_path := some current_file
       backup_path := some backup_file }, st4)

/-! ### Pending-attempt reader (agent.py, `check_last_update_status`) -/

/-- Dict returned by `check_last_update_status`; optional fields are absent
keys. -/
structure CheckStatusResult where
  status : String
  message : String
  error_details : Option ErrorInfo := none
  metadata : Option RestartMetadata := none
  deriving DecidableEq

/-- Embedding of `agent.py` lines 162-203. The `.error` file is consulted
first; if present it is read, deleted, and reported. Otherwise the
`.restart_metadata` file, if present, is read, deleted, and reported as a
successful restart. With neither file present the call reports
`no_recent_update`. Each file is removed in the same call that reads it. -/
def check_last_update_status (st : FS) : CheckStatusResult × FS :=
  match st.error with
  | some e =>
      ({ status := "error"
         message := "Last code update failed and was reverted"
         error_details := some e }, { st with error := none })
  | none =>
    match st.metadata with
    | some m =>
        ({ status := "success"
           message := "Successfully restarted after code update"
           metadata := some m }, { st with metadata := none })
    | none =>
        ({ status := "no_recent_update"
           message := "No recent code update detected" }, st)

/-! ### Restart flag and resume token (main.py) -/

/-- Embedding of `main.py` lines 38-46: if the `.needs_restart` marker
exists it is unlinked and the call returns true; otherwise false. -/
def check_and_handle_restart_flag (st : FS) : Bool × FS :=
  match st.needs_restart with
  | some _ => (true, { st with needs_restart := none })
  | none => (false, st)

/-- The resume payload carried in the `RESUME_SESSION_INFO` environment
variable (`main.py` lines 162-167 and 254-261). -/
structure ResumeToken where
  user_id : String
  session_id : String
  message_counter : Nat
  deriving DecidableEq

/-- The slice of the process environment the supervisor consults. -/
structure Env where
  resume_session_info : Option ResumeToken
  deriving DecidableEq

/-- Embedding of `main.py` line 162: `os.environ.get("RESUME_SESSION_INFO")`
reads the variable and leaves the environment as it was — nothing in
`main.py` deletes the variable after reading it. -/
def read_resume_token (env : Env) : Option ResumeToken × Env :=
  (env.resume_session_info, env)

/-! ### Boot check and rollback (main.py) -/

/-- Embedding of `main.py` lines 48-62: the isolated child-process import of
the agent module succeeds or fails as a function of the current content of the live file, abstracted by the predicate `importOk`. -/
def test_agent_import (importOk : String → Bool) (st : FS) : Bool :=
  importOk st.live

/-- How `revert_agent_code` ends: backup restored and the `.error`
diagnostic written; `sys.exit(1)` because the restored backup also fails
to load; or a silent no-op because no backup file exists. -/
inductive RevertStatus where
  | reverted
  | fatal_exit_1
  | no_backup
  deriving DecidableEq

/-- Embedding of `main.py` lines 64-87. With no backup file the call does
nothing. Otherwise the backup content is written over the live file, then
the restored code is re-tested for importability, and only on success is the
`.error` diagnostic (timestamp `now`, fixed error text, traceback `tb`)
written; on failure the process calls `sys.exit(1)` with the backup content
already in place as live. -/
def revert_agent_code (importOk : String → Bool) (now : Nat) (tb : String)
    (st : FS) : RevertStatus × FS :=
  match st.backup with
  | none => (RevertStatus.no_backup, st)
  | some backup_content =>
    let error_info : ErrorInfo :=
      { timestamp := now
        error := "Code import failed after update"
        traceback := tb }
    let st1 := { st with live := backup_content }
    if test_agent_import importOk st1 then
      (RevertStatus.reverted, { st1 with error := some error_info })
    else
      (RevertStatus.fatal_exit_1, st1)

/-- How the module-level boot sequence of `main.py` ends: either the agent
loads and the main loop runs, or the process exits with the given code. -/
inductive BootStatus where
  | running
  | exits (code : Nat)
  deriving DecidableEq

/-- Embedding of `main.py` lines 89-102. The import of the live snapshot is
tested in isolation; on failure `revert_agent_code` runs (its `sys.exit(1)`
terminates the process with code 1), and afterwards the in-process
`from agent import root_agent` succeeds or exits with code 1 according to
whether the now-live content imports. No restart is attempted on either
exit path — the boot sequence ends the process. -/
def supervisor_boot (importOk : String → Bool) (now : Nat) (tb : String)
    (st : FS) : BootStatus × FS :=
  if test_agent_import importOk st then
    (BootStatus.running, st)
  else
    match revert_agent_code importOk now tb st with
    | (RevertStatus.fatal_exit_1, st1) => (BootStatus.exits 1, st1)
    | (RevertStatus.reverted, st1) =>
        if importOk st1.live then (BootStatus.running, st1)
        else (BootStatus.exits 1, st1)
    | (RevertStatus.no_backup, st1) =>
        if importOk st1.live then (BootStatus.running, st1)
        else (BootStatus.exits 1, st1)

/-! ### Outer retry loop (loop.py) -/

/-- Failure cap of the outer loop (`loop.py` line 6): after this many
consecutive failures the loop prints a fatal message and breaks. -/
def max_consecutive_failures : Nat := 5

/-- Delay before the next retry after `consecutive_failures` consecutive
failures (`loop.py` line 46): `min(consecutive_failures * 2, 30)` seconds —
linear in the failure count, capped at 30. -/
def wait_time (consecutive_failures : Nat) : Nat :=
  min (consecutive_failures * 2) 30

/-- Condition under which the loop stops retrying (`loop.py` line 41). -/
def gives_up (consecutive_failures : Nat) : Bool :=
  max_consecutive_failures ≤ consecutive_failures

/-! ### Concrete fixtures used by the witness and counterexample theorems -/

/-- Concrete parser fixture: agrees with CPython on the two candidates the
witnesses use — `x = 1` parses, while `def f(:` raises a `SyntaxError` at
line 1. -/
def parseDemo : String → ParseResult := fun code =>
  if code = "x = 1\n" then ParseResult.ok
  else ParseResult.err "invalid syntax (<string>, line 1)" (some 1) (some 7)
    (some "def f(:\n")

/-- Concrete prior disk state for the witnesses: some older live program,
a stale backup, no pending markers. -/
def fsDemo : FS :=
  { live := "old_live_source = True\n"
    backup := some "stale_backup = True\n" }

/-! ### Claim theorems -/

/-- C1: for every syntactically valid candidate and every prior disk state,
`update_agent_code` returns status `success`, leaves the `.backup` file
byte-for-byte equal to the live snapshot as it was before the call, and
leaves the live snapshot byte-for-byte equal to the candidate. -/
theorem update_commit_backs_up_and_writes (parse : String → ParseResult)
    (now : Nat) (env_session : Option String) (new_code : String) (st : FS)
    (h : parse new_code = ParseResult.ok) :
    (update_agent_code parse now env_session new_code st).1.status = "success" ∧
    (update_agent_code parse now env_session new_code st).2.backup = some st.live ∧
    (update_agent_code parse now env_session new_code st).2.live = new_code := by
  simp [update_agent_code, validate_python_syntax, h]

/-- Witness for C1 at the concrete candidate `x = 1` and disk state
`fsDemo`. -/
theorem update_commit_backs_up_and_writes_witness :
    parseDemo "x = 1\n" = ParseResult.ok ∧
    ((update_agent_code parseDemo 7 none "x = 1\n" fsDemo).1.status = "success" ∧
     (update_agent_code parseDemo 7 none "x = 1\n" fsDemo).2.backup = some fsDemo.live ∧
     (update_agent_code parseDemo 7 none "x = 1\n" fsDemo).2.live = "x = 1\n") :=
  ⟨by decide, update_commit_backs_up_and_writes parseDemo 7 none "x = 1\n" fsDemo
    (by decide)⟩

/-- C2: for every syntactically invalid candidate, `update_agent_code`
returns status `error` and mutates nothing: the live snapshot, the backup,
the restart metadata and the needs-restart marker (indeed the entire disk
state) are unchanged. -/
theorem update_invalid_is_error_and_mutates_nothing (parse : String → ParseResult)
    (now : Nat) (env_session : Option String) (new_code : String) (st : FS)
    (msg : String) (lineno offset : Option Nat) (text : Option String)
    (h : parse new_code = ParseResult.err msg lineno offset text) :
    (update_agent_code parse now env_session new_code st).1.status = "error" ∧
    (update_agent_code parse now env_session new_code st).2 = st ∧
    (update_agent_code parse now env_session new_code st).2.live = st.live ∧
    (update_agent_code parse now env_session new_code st).2.backup = st.backup ∧
    (update_agent_code parse now env_session new_code st).2.metadata = st.metadata ∧
    (update_agent_code parse now env_session new_code st).2.needs_restart =
      st.needs_restart := by
  simp [update_agent_code, validate_python_syntax, h]

/-- Witness for C2 at the concrete malformed candidate `def f(:`. -/
theorem update_invalid_is_error_and_mutates_nothing_witness :
    parseDemo "def f(:\n" = ParseResult.err "invalid syntax (<string>, line 1)"
      (some 1) (some 7) (some "def f(:\n") ∧
    ((update_agent_code parseDemo 7 none "def f(:\n" fsDemo).1.status = "error" ∧
     (update_agent_code parseDemo 7 none "def f(:\n" fsDemo).2 = fsDemo) :=
  ⟨by decide,
   let H := update_invalid_is_error_and_mutates_nothing parseDemo 7 none "def f(:\n"
     fsDemo "invalid syntax (<string>, line 1)" (some 1) (some 7) (some "def f(:\n")
     (by decide)
   ⟨H.1, H.2.1⟩⟩

/-- C3: committing a valid candidate and then rolling back restores the
live snapshot byte-for-byte to the pre-commit live snapshot — whether or
not the restored code passes the import re-test inside the rollback (the backup
content is written over live before that re-test). -/
theorem commit_then_rollback_restores_live (parse : String → ParseResult)
    (now now2 : Nat) (env_session : Option String) (tb : String)
    (importOk : String → Bool) (new_code : String) (st : FS)
    (h : parse new_code = ParseResult.ok) :
    (revert_agent_code importOk now2 tb
        (update_agent_code parse now env_session new_code st).2).2.live =
      st.live := by
  simp only [update_agent_code, validate_python_syntax, h]
  simp [revert_agent_code, test_agent_import]
  split <;> simp

/-- Witness for C3 at the concrete candidate `x = 1`, an import check that
rejects everything, and disk state `fsDemo`. -/
theorem commit_then_rollback_restores_live_witness :
    parseDemo "x = 1\n" = ParseResult.ok ∧
    (revert_agent_code (fun _ => false) 9 "tb"
        (update_agent_code parseDemo 7 none "x = 1\n" fsDemo).2).2.live =
      fsDemo.live :=
  ⟨by decide, commit_then_rollback_restores_live parseDemo 7 9 none "tb"
    (fun _ => false) "x = 1\n" fsDemo (by decide)⟩

/-- C4: when the live snapshot fails the boot-time import check and the
backup restored by the rollback also fails it, the boot sequence ends the
process with exit code 1 — a non-zero status, with no further restart
attempted (`sys.exit(1)` inside `revert_agent_code` terminates the
process). -/
theorem double_failure_exits_nonzero (importOk : String → Bool) (now : Nat)
    (tb : String) (st : FS) (b : String) (h1 : importOk st.live = false)
    (h2 : st.backup = some b) (h3 : importOk b = false) :
    (supervisor_boot importOk now tb st).1 = BootStatus.exits 1 ∧ (1 : Nat) ≠ 0 := by
  refine ⟨?_, one_ne_zero⟩
  simp [supervisor_boot, revert_agent_code, test_agent_import, h1, h2, h3]

/-- Witness for C4: a live snapshot and a backup that both fail the import
check under a concrete predicate accepting only the string `good`. -/
theorem double_failure_exits_nonzero_witness :
    ((fun s => s == "good") "bad_live" = false ∧
     ({ live := "bad_live", backup := some "bad_backup" } : FS).backup =
       some "bad_backup" ∧
     (fun s => s == "good") "bad_backup" = false) ∧
    (supervisor_boot (fun s => s == "good") 3 "tb"
        { live := "bad_live", backup := some "bad_backup" }).1 =
      BootStatus.exits 1 :=
  ⟨⟨by decide, rfl, by decide⟩,
   (double_failure_exits_nonzero (fun s => s == "good") 3 "tb"
     { live := "bad_live", backup := some "bad_backup" } "bad_backup"
     (by decide) rfl (by decide)).1⟩

/-- Concrete CPython-execution fixture for C5: the snippet defining a
`BaseException` subclass `Boom` and raising it terminates `exec` with an
exception outside the `Exception` hierarchy; everything else runs
normally. -/
def semBase : String → ExecOutcome := fun code =>
  if code = "class Boom(BaseException):\n    pass\nraise Boom()" then
    ExecOutcome.raisesBase "Boom"
  else ExecOutcome.normal "" []

/-- C5 counterexample: `execute_code` on a snippet that raises a
user-defined `BaseException` subclass propagates the exception to its
caller instead of returning a status `error` dict — `except Exception`
does not catch exceptions that derive from `BaseException` only, so the
claim that the call never propagates a raised error fails at this input. -/
theorem execute_code_propagates_counterexample :
    (execute_code semBase "class Boom(BaseException):\n    pass\nraise Boom()"
        { sys_stdout := 0 }).1 = ExecCall.propagates "Boom" := by
  decide

/-- C5 (amended): for every snippet whose execution raises an exception
from the `Exception` hierarchy, `execute_code` returns (rather than
propagates — the host continues running) a dict with status `error`, the
message of the error, and a non-empty stack-trace text. -/
theorem execute_code_reports_errors (sem : String → ExecOutcome) (code : String)
    (st : HostState) (msg tb : String)
    (h : sem code = ExecOutcome.raisesError msg tb) :
    (execute_code sem code st).1 = ExecCall.returns
      { status := "error"
        error_message := some msg
        traceback := some (traceback_format_exc tb) } ∧
    traceback_format_exc tb ≠ "" := by
  constructor
  · simp [execute_code, h]
  · intro hc
    have hlen := congrArg String.length hc
    simp [traceback_format_exc, traceback_header, String.length_append] at hlen
    exact absurd hlen.1 (by decide)

/-- Witness for the amended C5 theorem at a concrete division-by-zero
snippet. -/
theorem execute_code_reports_errors_witness :
    (fun code => if code = "1/0" then
        ExecOutcome.raisesError "division by zero"
          "  File line 1, in <module>\nZeroDivisionError: division by zero\n"
      else ExecOutcome.normal "" []) "1/0" =
      ExecOutcome.raisesError "division by zero"
        "  File line 1, in <module>\nZeroDivisionError: division by zero\n" ∧
    ((execute_code (fun code => if code = "1/0" then
        ExecOutcome.raisesError "division by zero"
          "  File line 1, in <module>\nZeroDivisionError: division by zero\n"
      else ExecOutcome.normal "" []) "1/0" { sys_stdout := 0 }).1 =
      ExecCall.returns
        { status := "error"
          error_message := some "division by zero"
          traceback := some (traceback_format_exc
            "  File line 1, in <module>\nZeroDivisionError: division by zero\n") } ∧
     traceback_format_exc
        "  File line 1, in <module>\nZeroDivisionError: division by zero\n" ≠ "") :=
  ⟨by decide, execute_code_reports_errors _ "1/0" { sys_stdout := 0 } _ _ (by decide)⟩

/-- C6: the syntax validator is a total function of the parse result alone
(it takes no host or disk state, so it executes nothing): for every
candidate it returns either the success dict, or a structured error dict of
kind `SyntaxError` carrying the message of the parse error, line, offset and
offending text. -/
theorem validate_total_and_structured (parse : String → ParseResult)
    (code : String) :
    (parse code = ParseResult.ok ∧
      validate_python_syntax parse code =
        { status := "success", message := "Syntax is valid" }) ∨
    (∃ msg lineno offset text,
      parse code = ParseResult.err msg lineno offset text ∧
      validate_python_syntax parse code =
        { status := "error"
          error_type := some "SyntaxError"
          message := msg
          line := some lineno
          offset := some offset
          text := some text }) := by
  cases h : parse code with
  | ok => exact Or.inl ⟨rfl, by simp [ validate_python_syntax, h]⟩
  | err msg lineno offset text =>
      exact Or.inr ⟨msg, lineno, offset, text, rfl, by
        simp [ validate_python_syntax, h]⟩

/-- Concrete restart-metadata record for the C7 fixtures. -/
def mdDemo : RestartMetadata :=
  { timestamp := 5
    backup_file := "agent.py.backup"
    reason := "code_update"
    session_info := "\x7b\x7d" }

/-- Concrete error record for the C7 fixtures. -/
def errDemo : ErrorInfo :=
  { timestamp := 6
    error := "Code import failed after update"
    traceback := "boom" }

/-- Disk state in which both the `.error` and the `.restart_metadata` files
exist — exactly the state left behind by a commit followed by a revert,
since the revert never deletes the metadata file. -/
def fsBothRecords : FS :=
  { live := "live_source\n"
    backup := some "backup_source\n"
    metadata := some mdDemo
    error := some errDemo }

/-- C7 counterexample: starting from a state with both the error record and
the restart metadata present, the second consecutive call to
`check_last_update_status` does not report `no_recent_update` — the first
call consumed only the `.error` file, so the second returns the still
pending metadata record as a status `success` report. -/
theorem check_twice_counterexample :
    (check_last_update_status (check_last_update_status fsBothRecords).2).1.status =
      "success" ∧
    (check_last_update_status (check_last_update_status fsBothRecords).2).1.status ≠
      "no_recent_update" ∧
    (check_last_update_status (check_last_update_status fsBothRecords).2).1.metadata =
      some mdDemo := by
  refine ⟨by decide, by decide, by decide⟩

/-- C7 (amended): each individual record is consumed at most once. A second
consecutive read of the needs-restart flag always returns false; a second
consecutive call to `check_last_update_status` reports `no_recent_update`
provided the `.error` and `.restart_metadata` files were not both present
beforehand (when both are present the second call returns the remaining
metadata record); the `RESUME_SESSION_INFO` environment variable, by
contrast, is not cleared by reading it, so a second read returns the same
token again. -/
theorem at_most_once_consumption :
    (∀ st : FS,
      (check_and_handle_restart_flag (check_and_handle_restart_flag st).2).1 =
        false) ∧
    (∀ st : FS, st.error = none ∨ st.metadata = none →
      (check_last_update_status (check_last_update_status st).2).1.status =
        "no_recent_update") ∧
    (∀ env : Env, read_resume_token env = (env.resume_session_info, env)) := by
  refine ⟨?_, ?_, fun env => rfl⟩
  · intro st
    cases h : st.needs_restart <;>
      simp [check_and_handle_restart_flag, h]
  · intro st h
    cases he : st.error with
    | some e =>
        cases hm : st.metadata with
        | some m => cases h with
          | inl h1 => exact absurd he (by simp [h1])
          | inr h2 => exact absurd hm (by simp [h2])
        | none => simp [check_last_update_status, he, hm]
    | none =>
        cases hm : st.metadata with
        | some m => simp [check_last_update_status, he, hm]
        | none => simp [check_last_update_status, he, hm]

/-- Witness for the amended C7 theorem at a concrete state holding only a
pending metadata record. -/
theorem at_most_once_consumption_witness :
    (({ live := "live_source\n", metadata := some mdDemo } : FS).error = none ∨
     ({ live := "live_source\n", metadata := some mdDemo } : FS).metadata = none) ∧
    (check_last_update_status
        (check_last_update_status
          { live := "live_source\n", metadata := some mdDemo }).2).1.status =
      "no_recent_update" :=
  ⟨Or.inl rfl,
   at_most_once_consumption.2.1 { live := "live_source\n", metadata := some mdDemo }
     (Or.inl rfl)⟩

/-- C8: evaluation of the delay and cap of the retry loop. The delay after `n`
consecutive failures is `min (n * 2) 30`: 2, 4 and 6 seconds after the
first, second and third failure — a linear progression (the geometric-mean
test `d2 * d2 = d1 * d3` fails), although the comment of the source itself on
`loop.py` line 46 calls it "Exponential backoff". The delay never exceeds
30 seconds and the loop gives up after 5 consecutive failures. -/
theorem backoff_is_linear_not_exponential :
    wait_time 1 = 2 ∧ wait_time 2 = 4 ∧ wait_time 3 = 6 ∧
    wait_time 2 * wait_time 2 ≠ wait_time 1 * wait_time 3 ∧
    (∀ n : Nat, wait_time n ≤ 30) ∧
    max_consecutive_failures = 5 ∧
    gives_up max_consecutive_failures = true := by
  refine ⟨by decide, by decide, by decide, by decide, ?_, rfl, by decide⟩
  intro n
  exact min_le_right (n * 2) 30

/-- Concrete CPython-execution fixture for C9: the snippet binding
`result = 42` and printing `hi` terminates normally with captured output
`hi` plus a newline and the binding in its namespace. -/
def sem42 : String → ExecOutcome := fun code =>
  if code = "result = 42\nprint(\"hi\")" then
    ExecOutcome.normal "hi\n" [("result", PyValue.int 42)]
  else ExecOutcome.normal "" []

/-- C9: for every snippet whose execution terminates normally,
`execute_code` returns status `success`, the captured stdout text, and the
value bound under the name `result` in the execution namespace — Python
`None` when no such binding exists. -/
theorem execute_code_success_result (sem : String → ExecOutcome) (code : String)
    (st : HostState) (output : String) (names : List (String × PyValue))
    (h : sem code = ExecOutcome.normal output names) :
    (execute_code sem code st).1 = ExecCall.returns
      { status := "success"
        stdout := some output
        result := some ((List.lookup "result" names).getD PyValue.pyNone) } := by
  simp [execute_code, h]

/-- Witness for C9 at the concrete snippet `result = 42` / `print("hi")`:
the call returns status `success`, captured output `hi` plus newline, and
return value 42. -/
theorem execute_code_success_result_witness :
    sem42 "result = 42\nprint(\"hi\")" =
      ExecOutcome.normal "hi\n" [("result", PyValue.int 42)] ∧
    (execute_code sem42 "result = 42\nprint(\"hi\")" { sys_stdout := 0 }).1 =
      ExecCall.returns
        { status := "success"
          stdout := some "hi\n"
          result := some (PyValue.int 42) } :=
  ⟨by decide, by
    have H := execute_code_success_result sem42 "result = 42\nprint(\"hi\")"
      { sys_stdout := 0 } "hi\n" [("result", PyValue.int 42)] (by decide)
    simpa using H⟩

/-- C10: whatever the executed snippet does — terminate normally, raise a
caught `Exception`, or escape via a `BaseException` outside the `Exception`
hierarchy — the `finally` clause leaves `sys.stdout` referencing the exact
object it referenced before the call; the redirection never leaks past
`execute_code`. -/
theorem execute_code_restores_stdout (sem : String → ExecOutcome) (code : String)
    (st : HostState) :
    (execute_code sem code st).2.sys_stdout = st.sys_stdout := by
  cases h : sem code <;> simp [execute_code, h]

end VibeAgent
